import Mathlib

/-!
Shallow embedding of the DD1750 form renderer
(src/dd1750_generator.py) and verification of its specification.

The renderer takes a list of line items and an optional header, paginates
the items at a fixed capacity of 18 rows per page, and for each page
builds a vector-text overlay (a sequence of positioned draw instructions)
that is merged onto a fixed one-page template.  We model the output
document as the list of its pages, each page being either the raw
unmodified template (the empty-input case) or the template composed with
an overlay, the overlay being the list of draw instructions in draw
order.  Coordinates are exact rationals: every coordinate in the source
is a decimal with at most two fractional digits and the single division
(row height) is exact, so rational arithmetic is a faithful model of the
float arithmetic the source performs.
-/

namespace DD1750

/-! ## Layout constants (src/dd1750_generator.py lines 12-50) -/

def ROWS_PER_PAGE : Nat := 18

def PAGE_W : ℚ := 612.0
def PAGE_H : ℚ := 792.0

def X_BOX_L : ℚ := 44.0
def X_BOX_R : ℚ := 88.0
def X_CONTENT_L : ℚ := 88.0
def X_CONTENT_R : ℚ := 365.0
def X_UOI_L : ℚ := 365.0
def X_UOI_R : ℚ := 408.5
def X_INIT_L : ℚ := 408.5
def X_INIT_R : ℚ := 453.5
def X_SPARES_L : ℚ := 453.5
def X_SPARES_R : ℚ := 514.5
def X_TOTAL_L : ℚ := 514.5
def X_TOTAL_R : ℚ := 566.0

def Y_TABLE_TOP_LINE : ℚ := 616.0
def Y_TABLE_BOTTOM_LINE : ℚ := 89.5
def ROW_H : ℚ := (Y_TABLE_TOP_LINE - Y_TABLE_BOTTOM_LINE) / (ROWS_PER_PAGE : ℚ)
def PAD_X : ℚ := 3.0

def HEADER_Y_packed_by : ℚ := 735.0
def HEADER_Y_no_boxes : ℚ := 735.0
def HEADER_Y_req_no : ℚ := 735.0
def HEADER_Y_order_no : ℚ := 710.0
def HEADER_Y_end_item : ℚ := 685.0
def HEADER_Y_date : ℚ := 685.0
def HEADER_Y_page : ℚ := 660.0

def HEADER_X_packed_by : ℚ := 95.0
def HEADER_X_no_boxes : ℚ := 240.0
def HEADER_X_req_no : ℚ := 370.0
def HEADER_X_order_no : ℚ := 370.0
def HEADER_X_end_item : ℚ := 95.0
def HEADER_X_date : ℚ := 500.0
def HEADER_X_page_num : ℚ := 500.0
def HEADER_X_page_total : ℚ := 545.0

/-! ## Data model (src/dd1750_generator.py lines 53-75) -/

/-- Embeds the dataclass DD1750Item.  Integer fields are Python ints,
modelled as unbounded Int; string fields are modelled as String. -/
structure DD1750Item where
  line_no : Int
  description : String
  nsn : String := ""
  unit_of_issue : String := "EA"
  initial_qty : Int := 1
  spares_qty : Int := 0
  total_qty : Int := 1
  deriving DecidableEq, Repr

/-- Embeds the dataclass DD1750Header. -/
structure DD1750Header where
  packed_by : String := ""
  no_boxes : String := ""
  requisition_no : String := ""
  order_no : String := ""
  end_item : String := ""
  date : String := ""
  certifier_name : String := ""
  certifier_title : String := ""
  deriving DecidableEq, Repr

/-! ## Canvas model (reportlab canvas as used by the source)

The source only uses setFont, drawString and drawCentredString on the
overlay canvas, so the canvas is modelled as a current-font state plus
the list of draw instructions emitted so far, in draw order. -/

/-- One positioned text draw on the overlay: the text, its x and y
coordinates, the font name and size active at the draw, and whether the
draw is centered (drawCentredString) or left-aligned (drawString). -/
structure DrawInstr where
  text : String
  x : ℚ
  y : ℚ
  font : String
  size : Nat
  centered : Bool
  deriving DecidableEq, Repr

/-- Canvas state: the currently selected font and the instructions
emitted so far. -/
structure Canvas where
  font : String
  size : Nat
  instrs : List DrawInstr
  deriving DecidableEq, Repr

/-- Fresh overlay canvas.  Every draw performed by the source is
preceded by an explicit setFont, so the initial font never reaches an
instruction; the reportlab default of Helvetica 12 is used. -/
def Canvas.init : Canvas := ⟨"Helvetica", 12, []⟩

def Canvas.setFont (c : Canvas) (f : String) (s : Nat) : Canvas :=
  { c with font := f, size := s }

def Canvas.drawString (c : Canvas) (x y : ℚ) (t : String) : Canvas :=
  { c with instrs := c.instrs ++ [⟨t, x, y, c.font, c.size, false⟩] }

def Canvas.drawCentredString (c : Canvas) (x y : ℚ) (t : String) : Canvas :=
  { c with instrs := c.instrs ++ [⟨t, x, y, c.font, c.size, true⟩] }

/-! ## Header drawing (src/dd1750_generator.py lines 176-217)

Python truthiness on a str field is emptiness, so `if header.packed_by:`
is modelled as a test against the empty string. -/

/-- Embeds _draw_header. -/
def draw_header (can : Canvas) (header : DD1750Header)
    (page_num total_pages : Nat) : Canvas :=
  let can := can.setFont "Helvetica" 10
  let can := if header.packed_by ≠ "" then
      can.drawString HEADER_X_packed_by HEADER_Y_packed_by header.packed_by
    else can
  let can := if header.no_boxes ≠ "" then
      can.drawString HEADER_X_no_boxes HEADER_Y_no_boxes header.no_boxes
    else can
  let can := if header.requisition_no ≠ "" then
      can.drawString HEADER_X_req_no HEADER_Y_req_no header.requisition_no
    else can
  let can := if header.order_no ≠ "" then
      can.drawString HEADER_X_order_no HEADER_Y_order_no header.order_no
    else can
  let can := if header.end_item ≠ "" then
      (can.setFont "Helvetica" 8).drawString HEADER_X_end_item HEADER_Y_end_item
        (header.end_item.take 60)
    else can
  let can := can.setFont "Helvetica" 10
  let can := if header.date ≠ "" then
      can.drawString HEADER_X_date HEADER_Y_date header.date
    else can
  let can := can.drawString HEADER_X_page_num HEADER_Y_page (toString page_num)
  let can := can.drawString HEADER_X_page_total HEADER_Y_page (toString total_pages)
  if header.certifier_name ≠ "" ∨ header.certifier_title ≠ "" then
    let can := can.setFont "Helvetica" 9
    let can := if header.certifier_name ≠ "" then
        can.drawString 95.0 55.0 header.certifier_name
      else can
    if header.certifier_title ≠ "" then
      can.drawString 280.0 55.0 header.certifier_title
    else can
  else can

/-! ## Item row drawing (src/dd1750_generator.py lines 127-159) -/

/-- Top anchor of the first row: Y_TABLE_TOP_LINE - 5.0 (line 127). -/
def first_row_top : ℚ := Y_TABLE_TOP_LINE - 5.0

/-- Embeds one iteration of the item loop: the draws performed for the
item at row index i (0-indexed within the page). -/
def drawItemRow (can : Canvas) (i : Nat) (item : DD1750Item) : Canvas :=
  let y : ℚ := first_row_top - (i : ℚ) * ROW_H
  let y_desc := y - 7.0
  let y_nsn := y - 17.0
  let can := can.setFont "Helvetica" 8
  let can := can.drawCentredString ((X_BOX_L + X_BOX_R) / 2) y_desc (toString item.line_no)
  let can := can.setFont "Helvetica" 7
  let desc := if item.description.length > 50 then item.description.take 50
    else item.description
  let can := can.drawString (X_CONTENT_L + PAD_X) y_desc desc
  let can := if item.nsn ≠ "" then
      (can.setFont "Helvetica" 6).drawString (X_CONTENT_L + PAD_X) y_nsn
        ("NSN: " ++ item.nsn)
    else can
  let can := can.setFont "Helvetica" 8
  let can := can.drawCentredString ((X_UOI_L + X_UOI_R) / 2) y_desc item.unit_of_issue
  let can := can.drawCentredString ((X_INIT_L + X_INIT_R) / 2) y_desc (toString item.initial_qty)
  let can := can.drawCentredString ((X_SPARES_L + X_SPARES_R) / 2) y_desc (toString item.spares_qty)
  can.drawCentredString ((X_TOTAL_L + X_TOTAL_R) / 2) y_desc (toString item.total_qty)

/-- Embeds the `for i, item in enumerate(page_items)` loop, carrying the
running row index. -/
def drawItems (can : Canvas) (i : Nat) : List DD1750Item → Canvas
  | [] => can
  | item :: rest => drawItems (drawItemRow can i item) (i + 1) rest

/-! ## Page composition and the generator (lines 96-173) -/

/-- One page of the output document: either the unmodified template
page (the empty-input case, line 100) or the template page with a
vector-text overlay merged on top (line 167). -/
inductive OutPage where
  | raw : OutPage
  | composed : List DrawInstr → OutPage
  deriving DecidableEq, Repr

/-- Number of pages: math.ceil(len(items) / ROWS_PER_PAGE) (line 105). -/
def totalPages (items : List DD1750Item) : Nat :=
  (items.length + ROWS_PER_PAGE - 1) / ROWS_PER_PAGE

/-- Item slice of page page_num: items[start_idx:end_idx] with
start_idx = page_num * 18 and end_idx = min((page_num + 1) * 18, len)
(lines 109-111). -/
def pageSlice (items : List DD1750Item) (page_num : Nat) : List DD1750Item :=
  (items.drop (page_num * ROWS_PER_PAGE)).take ROWS_PER_PAGE

/-- The pagination of the item list: the per-page item slices in page
order, exactly as the page loop of generate_dd1750 computes them. -/
def paginate (items : List DD1750Item) : List (List DD1750Item) :=
  (List.range (totalPages items)).map (pageSlice items)

/-- Overlay built for one page (lines 113-161): header draws (or bare
page numbers when no header is given), then the item rows. -/
def makeOverlay (header : Option DD1750Header) (page_num total_pages : Nat)
    (page_items : List DD1750Item) : List DrawInstr :=
  let can := Canvas.init
  let can := match header with
    | some h => draw_header can h (page_num + 1) total_pages
    | none =>
        let can := can.setFont "Helvetica" 10
        let can := can.drawString HEADER_X_page_num HEADER_Y_page (toString (page_num + 1))
        can.drawString HEADER_X_page_total HEADER_Y_page (toString total_pages)
  (drawItems can 0 page_items).instrs

/-- Embeds generate_dd1750.  The output document is modelled as its
list of pages; the returned pair is (pages, item_count), matching the
source pair (output_path, item_count) with the written document made
explicit.  An empty item list yields the single unmodified template
page (lines 96-103); otherwise one composed page per slice. -/
def generate_dd1750 (items : List DD1750Item) (header : Option DD1750Header) :
    List OutPage × Nat :=
  if items.isEmpty then ([OutPage.raw], 0)
  else
    ((List.range (totalPages items)).map (fun page_num =>
        OutPage.composed (makeOverlay header page_num (totalPages items)
          (pageSlice items page_num))),
      items.length)

/-! ## Fallible template reads (error model, lines 96-103 and 164-171)

The source opens the template afresh for every page merge (and once in
the empty-input case); output is written to the file only after every
page has been composed, so a failed read of the template during the
composition of any page aborts the whole render with no pages written.
The reads are modelled by a function from the read index (the page
number) to an Except result. -/

inductive PdfError where
  | templateUnreadable : Nat → PdfError
  deriving DecidableEq, Repr

/-- Number of template reads generate_dd1750 performs: one for the
empty-input branch, otherwise one per page. -/
def numTemplateReads (items : List DD1750Item) : Nat :=
  if items.isEmpty then 1 else totalPages items

/-- Composes the pages for the given page numbers, reading the template
once per page; the first failed read aborts the whole composition. -/
def composeRangeE (items : List DD1750Item) (header : Option DD1750Header)
    (total : Nat) (readTemplate : Nat → Except PdfError Unit) :
    List Nat → Except PdfError (List OutPage)
  | [] => Except.ok []
  | p :: ps =>
    match readTemplate p with
    | Except.error e => Except.error e
    | Except.ok _ =>
      match composeRangeE items header total readTemplate ps with
      | Except.error e => Except.error e
      | Except.ok rest =>
        Except.ok (OutPage.composed (makeOverlay header p total (pageSlice items p)) :: rest)

/-- Embeds generate_dd1750 together with its template reads: identical
to generate_dd1750 except that each opening of the template may fail,
in which case the whole render fails and no pages are produced. -/
def generateE (items : List DD1750Item) (header : Option DD1750Header)
    (readTemplate : Nat → Except PdfError Unit) :
    Except PdfError (List OutPage × Nat) :=
  if items.isEmpty then
    match readTemplate 0 with
    | Except.error e => Except.error e
    | Except.ok _ => Except.ok ([OutPage.raw], 0)
  else
    match composeRangeE items header (totalPages items) readTemplate
        (List.range (totalPages items)) with
    | Except.error e => Except.error e
    | Except.ok pages => Except.ok (pages, items.length)

/-- Boolean success test for an Except result. -/
def exceptOk {ε α : Type} : Except ε α → Bool
  | Except.ok _ => true
  | Except.error _ => false

/-! ## Spec-side expected draw lists

The following definitions transcribe the draw instructions the SPEC
says each page receives; the theorems below compare them with what the
embedded source code actually emits. -/

/-- Expected page-number instruction: the 1-based page index at its
fixed header coordinate in Helvetica 10. -/
def pageNumInstr (p : Nat) : DrawInstr :=
  ⟨toString p, HEADER_X_page_num, HEADER_Y_page, "Helvetica", 10, false⟩

/-- Expected total-page-count instruction at its fixed header
coordinate in Helvetica 10. -/
def pageTotalInstr (t : Nat) : DrawInstr :=
  ⟨toString t, HEADER_X_page_total, HEADER_Y_page, "Helvetica", 10, false⟩

/-- Expected header field draws per the spec, independent of the page
index: each present (non-empty) field at its fixed coordinate, the date
only if non-empty, end_item truncated to 60 characters. -/
def headerFixedSpec (h : DD1750Header) : List DrawInstr :=
  (if h.packed_by ≠ "" then
      [⟨h.packed_by, 95.0, 735.0, "Helvetica", 10, false⟩] else [])
  ++ (if h.no_boxes ≠ "" then
      [⟨h.no_boxes, 240.0, 735.0, "Helvetica", 10, false⟩] else [])
  ++ (if h.requisition_no ≠ "" then
      [⟨h.requisition_no, 370.0, 735.0, "Helvetica", 10, false⟩] else [])
  ++ (if h.order_no ≠ "" then
      [⟨h.order_no, 370.0, 710.0, "Helvetica", 10, false⟩] else [])
  ++ (if h.end_item ≠ "" then
      [⟨h.end_item.take 60, 95.0, 685.0, "Helvetica", 8, false⟩] else [])
  ++ (if h.date ≠ "" then
      [⟨h.date, 500.0, 685.0, "Helvetica", 10, false⟩] else [])

/-- Expected certifier draws near the page bottom per the spec: drawn
only if at least one of name and title is non-empty. -/
def certSpec (h : DD1750Header) : List DrawInstr :=
  if h.certifier_name ≠ "" ∨ h.certifier_title ≠ "" then
    (if h.certifier_name ≠ "" then
        [⟨h.certifier_name, 95.0, 55.0, "Helvetica", 9, false⟩] else [])
    ++ (if h.certifier_title ≠ "" then
        [⟨h.certifier_title, 280.0, 55.0, "Helvetica", 9, false⟩] else [])
  else []

/-- Expected draws for the item at row index i per the spec: row anchor
y = (616 - 5) - i * ROW_H; line number centered in the box-number
column at y - 7; description left-aligned 3 units from the left edge of
the content column at y - 7, truncated to its first 50 characters when
longer than 50; the NSN line exactly when nsn is non-empty, drawn as
"NSN: " + nsn at y - 17; unit of issue and the three quantities each
centered in their columns at y - 7. -/
def rowSpec (i : Nat) (item : DD1750Item) : List DrawInstr :=
  let y : ℚ := (616 - 5) - (i : ℚ) * ROW_H
  [⟨toString item.line_no, (44 + 88) / 2, y - 7, "Helvetica", 8, true⟩,
   ⟨if item.description.length > 50 then item.description.take 50
      else item.description,
    88 + 3, y - 7, "Helvetica", 7, false⟩]
  ++ (if item.nsn ≠ "" then
      [⟨"NSN: " ++ item.nsn, 88 + 3, y - 17, "Helvetica", 6, false⟩] else [])
  ++ [⟨item.unit_of_issue, (365 + 408.5) / 2, y - 7, "Helvetica", 8, true⟩,
      ⟨toString item.initial_qty, (408.5 + 453.5) / 2, y - 7, "Helvetica", 8, true⟩,
      ⟨toString item.spares_qty, (453.5 + 514.5) / 2, y - 7, "Helvetica", 8, true⟩,
      ⟨toString item.total_qty, (514.5 + 566) / 2, y - 7, "Helvetica", 8, true⟩]

/-- Expected draws for a whole page of items starting at row index i. -/
def pageRowsInstrs : Nat → List DD1750Item → List DrawInstr
  | _, [] => []
  | i, item :: rest => rowSpec i item ++ pageRowsInstrs (i + 1) rest

/-- Recursive form of the pagination: first 18 items, then the
pagination of the rest. -/
def chunk18 : List DD1750Item → List (List DD1750Item)
  | [] => []
  | x :: xs => ((x :: xs).take ROWS_PER_PAGE) :: chunk18 ((x :: xs).drop ROWS_PER_PAGE)
termination_by l => l.length
decreasing_by simp [ROWS_PER_PAGE]; omega

/-! ## Concrete inputs used by the witnesses -/

/-- A sample line item. -/
def demoItem : DD1750Item :=
  ⟨1, "WRENCH, ADJUSTABLE: 12 IN.", "123456789", "EA", 2, 0, 2⟩

/-- A sample header with every field populated. -/
def demoHeader : DD1750Header :=
  ⟨"SGT PACKER", "3", "REQ-1", "ORD-7", "TRUCK, UTILITY", "2026-10-12",
   "JANE DOE", "CPT"⟩

/-- A 51-character description. -/
def desc51 : String := String.mk (List.replicate 51 'a')

/-- A 50-character description. -/
def desc50 : String := String.mk (List.replicate 50 'a')

/-- A template read that always fails. -/
def badRead : Nat → Except PdfError Unit :=
  fun n => Except.error (PdfError.templateUnreadable n)

/-! ## Canvas simp lemmas -/

@[simp] theorem Canvas.setFont_instrs (c : Canvas) (f : String) (s : Nat) :
    (c.setFont f s).instrs = c.instrs := rfl

@[simp] theorem Canvas.setFont_font (c : Canvas) (f : String) (s : Nat) :
    (c.setFont f s).font = f := rfl

@[simp] theorem Canvas.setFont_size (c : Canvas) (f : String) (s : Nat) :
    (c.setFont f s).size = s := rfl

@[simp] theorem Canvas.drawString_instrs (c : Canvas) (x y : ℚ) (t : String) :
    (c.drawString x y t).instrs = c.instrs ++ [⟨t, x, y, c.font, c.size, false⟩] := rfl

@[simp] theorem Canvas.drawString_font (c : Canvas) (x y : ℚ) (t : String) :
    (c.drawString x y t).font = c.font := rfl

@[simp] theorem Canvas.drawString_size (c : Canvas) (x y : ℚ) (t : String) :
    (c.drawString x y t).size = c.size := rfl

@[simp] theorem Canvas.drawCentredString_instrs (c : Canvas) (x y : ℚ) (t : String) :
    (c.drawCentredString x y t).instrs = c.instrs ++ [⟨t, x, y, c.font, c.size, true⟩] := rfl

@[simp] theorem Canvas.drawCentredString_font (c : Canvas) (x y : ℚ) (t : String) :
    (c.drawCentredString x y t).font = c.font := rfl

@[simp] theorem Canvas.drawCentredString_size (c : Canvas) (x y : ℚ) (t : String) :
    (c.drawCentredString x y t).size = c.size := rfl

/-! ## Helper lemmas -/

/-- The draws of one item row are exactly the expected row draws of the
spec, appended to whatever the canvas already holds, independent of the
incoming font state. -/
theorem drawItemRow_instrs (c : Canvas) (i : Nat) (item : DD1750Item) :
    (drawItemRow c i item).instrs = c.instrs ++ rowSpec i item := by
  unfold drawItemRow rowSpec first_row_top Y_TABLE_TOP_LINE
  by_cases h : item.nsn = "" <;>
    simp [h, List.append_assoc, X_BOX_L, X_BOX_R, X_CONTENT_L, PAD_X,
      X_UOI_L, X_UOI_R, X_INIT_L, X_INIT_R, X_SPARES_L, X_SPARES_R,
      X_TOTAL_L, X_TOTAL_R] <;> norm_num

/-- The draws of the item loop are exactly the expected page rows. -/
theorem drawItems_instrs (c : Canvas) (i : Nat) (l : List DD1750Item) :
    (drawItems c i l).instrs = c.instrs ++ pageRowsInstrs i l := by
  induction l generalizing c i with
  | nil => simp [drawItems, pageRowsInstrs]
  | cons item rest ih =>
    simp [drawItems, pageRowsInstrs, ih, drawItemRow_instrs, List.append_assoc]

set_option maxHeartbeats 3200000 in
/-- The draws of the header routine are exactly the fixed header fields
of the spec, then the two page-number draws, then the certifier
draws. -/
theorem draw_header_instrs (c : Canvas) (h : DD1750Header) (p t : Nat) :
    (draw_header c h p t).instrs =
      c.instrs ++ headerFixedSpec h ++ [pageNumInstr p, pageTotalInstr t]
        ++ certSpec h := by
  unfold draw_header headerFixedSpec certSpec pageNumInstr pageTotalInstr
  split_ifs <;>
    simp_all [HEADER_X_packed_by, HEADER_Y_packed_by, HEADER_X_no_boxes,
      HEADER_Y_no_boxes, HEADER_X_req_no, HEADER_Y_req_no, HEADER_X_order_no,
      HEADER_Y_order_no, HEADER_X_end_item, HEADER_Y_end_item, HEADER_X_date,
      HEADER_Y_date, HEADER_X_page_num, HEADER_X_page_total, HEADER_Y_page,
      List.append_assoc]

theorem totalPages_nil : totalPages [] = 0 := by
  simp [totalPages, ROWS_PER_PAGE]

theorem totalPages_pos (items : List DD1750Item) (h : items ≠ []) :
    0 < totalPages items := by
  have hl : 0 < items.length := List.length_pos.mpr h
  have : ROWS_PER_PAGE ≤ items.length + ROWS_PER_PAGE - 1 := by
    simp [ROWS_PER_PAGE]; omega
  exact Nat.le_div_iff_mul_le (by simp [ROWS_PER_PAGE]) |>.mpr (by simpa using this)

theorem totalPages_succ (items : List DD1750Item) (h : items ≠ []) :
    totalPages items = totalPages (items.drop ROWS_PER_PAGE) + 1 := by
  have hl : 0 < items.length := List.length_pos.mpr h
  simp only [totalPages, List.length_drop, ROWS_PER_PAGE]
  rcases Nat.le_total items.length 18 with hle | hge
  · have h1 : (items.length + 18 - 1) / 18 = 1 := by
      apply Nat.div_eq_of_lt_le <;> omega
    have h2 : items.length - 18 + 18 - 1 = 17 := by omega
    rw [h1, h2]
  · have h1 : items.length + 18 - 1 = (items.length - 18 + 18 - 1) + 18 := by omega
    rw [h1, Nat.add_div_right _ (by norm_num)]

theorem pageSlice_zero (items : List DD1750Item) :
    pageSlice items 0 = items.take ROWS_PER_PAGE := by
  simp [pageSlice]

theorem pageSlice_succ (items : List DD1750Item) (p : Nat) :
    pageSlice items (p + 1) = pageSlice (items.drop ROWS_PER_PAGE) p := by
  simp [pageSlice, List.drop_drop, Nat.succ_mul, Nat.add_comm]

theorem paginate_eq_chunk18 (items : List DD1750Item) :
    paginate items = chunk18 items := by
  suffices h : ∀ n (l : List DD1750Item), l.length ≤ n → paginate l = chunk18 l from
    h items.length items le_rfl
  intro n
  induction n with
  | zero =>
    intro l hl
    have : l = [] := List.length_eq_zero.mp (Nat.le_zero.mp hl)
    subst this
    simp [paginate, totalPages_nil, chunk18]
  | succ n ih =>
    intro l hl
    match l with
    | [] => simp [paginate, totalPages_nil, chunk18]
    | x :: xs =>
      rw [chunk18]
      rw [paginate, totalPages_succ (x :: xs) (by simp), List.range_succ_eq_map]
      simp only [List.map_cons, List.map_map]
      rw [pageSlice_zero]
      congr 1
      have hdrop : ((x :: xs).drop ROWS_PER_PAGE).length ≤ n := by
        simp only [List.length_cons] at hl
        simp [ROWS_PER_PAGE]; omega
      rw [← ih _ hdrop]
      simp only [paginate]
      apply List.map_congr_left
      intro p _
      simp [Function.comp, pageSlice_succ]

theorem chunk18_flatten (items : List DD1750Item) :
    (chunk18 items).flatten = items := by
  suffices h : ∀ n (l : List DD1750Item), l.length ≤ n → (chunk18 l).flatten = l from
    h items.length items le_rfl
  intro n
  induction n with
  | zero =>
    intro l hl
    have : l = [] := List.length_eq_zero.mp (Nat.le_zero.mp hl)
    subst this
    simp [chunk18]
  | succ n ih =>
    intro l hl
    match l with
    | [] => simp [chunk18]
    | x :: xs =>
      rw [chunk18]
      have hdrop : ((x :: xs).drop ROWS_PER_PAGE).length ≤ n := by
        simp only [List.length_cons] at hl
        simp [ROWS_PER_PAGE]; omega
      simp only [List.flatten_cons, ih _ hdrop, List.take_append_drop]

theorem paginate_flatten (items : List DD1750Item) :
    (paginate items).flatten = items := by
  rw [paginate_eq_chunk18, chunk18_flatten]

/-- A failed template read among the pages to compose aborts the whole
composition. -/
theorem composeRangeE_error (items : List DD1750Item) (header : Option DD1750Header)
    (total : Nat) (rt : Nat → Except PdfError Unit) (l : List Nat) (p : Nat)
    (hp : p ∈ l) (e : PdfError) (he : rt p = Except.error e) :
    exceptOk (composeRangeE items header total rt l) = false := by
  induction l with
  | nil => cases hp
  | cons a l ih =>
    rcases List.mem_cons.mp hp with rfl | hmem
    · simp only [composeRangeE, he]
      rfl
    · cases hra : rt a with
      | error e2 => simp only [composeRangeE, hra]; rfl
      | ok u =>
        have hih := ih hmem
        simp only [composeRangeE, hra]
        cases hcr : composeRangeE items header total rt l with
        | error e3 => rfl
        | ok rest => rw [hcr] at hih; simp [exceptOk] at hih

/-- Page lookup in generate_dd1750 for a non-empty item list. -/
theorem generate_page_eq (items : List DD1750Item) (header : Option DD1750Header)
    (hne : items ≠ []) (p : Nat) (hp : p < totalPages items) :
    (generate_dd1750 items header).1[p]? =
      some (OutPage.composed (makeOverlay header p (totalPages items)
        (pageSlice items p))) := by
  have hne2 : items.isEmpty = false := by
    cases items with
    | nil => cases hne rfl
    | cons x xs => rfl
  simp [generate_dd1750, hne2, List.getElem?_range, hp]

/-! ## Claim theorems -/

/-- C1: for every list of N items, generate_dd1750 produces an output
document whose page count equals max(1, ceil(N/18)); in particular 18
items yield exactly 1 page and 19 items yield exactly 2 pages. -/
theorem page_count_spec :
    (∀ (items : List DD1750Item) (header : Option DD1750Header),
        (generate_dd1750 items header).1.length
          = max 1 ((items.length + 17) / 18))
    ∧ (generate_dd1750 (List.replicate 18 demoItem) none).1.length = 1
    ∧ (generate_dd1750 (List.replicate 19 demoItem) none).1.length = 2 := by
  have hgen : ∀ (items : List DD1750Item) (header : Option DD1750Header),
      (generate_dd1750 items header).1.length = max 1 ((items.length + 17) / 18) := by
    intro items header
    match items with
    | [] => simp [generate_dd1750]
    | x :: xs =>
      have hne2 : (x :: xs).isEmpty = false := rfl
      have hpos := totalPages_pos (x :: xs) (by simp)
      simp only [generate_dd1750, hne2, Bool.false_eq_true, if_false,
        List.length_map, List.length_range]
      simp only [totalPages, ROWS_PER_PAGE] at hpos ⊢
      omega
  refine ⟨hgen, ?_, ?_⟩
  · rw [hgen (List.replicate 18 demoItem) none]
    simp
  · rw [hgen (List.replicate 19 demoItem) none]
    simp

/-- C2: pagination partitions the item list into contiguous slices in
original order: concatenating the per-page slices in page order
reproduces the input exactly, and the per-page counts sum to the input
count. -/
theorem pagination_preserves_items (items : List DD1750Item) :
    (paginate items).flatten = items
    ∧ ((paginate items).map List.length).sum = items.length := by
  refine ⟨paginate_flatten items, ?_⟩
  conv_rhs => rw [← paginate_flatten items]
  exact (List.length_flatten _).symm

/-- C3: with an empty item list the output is a single page equal to
the unmodified template, with no overlay and no drawn text, whatever
header is supplied, and the reported item count is 0. -/
theorem empty_items_blank_template (header : Option DD1750Header) :
    generate_dd1750 [] header = ([OutPage.raw], 0) := rfl

/-- C4: the description text drawn for an item (the second instruction
the row emits) is the first 50 characters of the description when its
length exceeds 50 and the description unmodified otherwise; in
particular a 51-character description renders as its first 50
characters and a 50-character description renders unchanged. -/
theorem description_truncation :
    (∀ (c : Canvas) (i : Nat) (item : DD1750Item),
        ((drawItemRow c i item).instrs[c.instrs.length + 1]?).map DrawInstr.text
          = some (if item.description.length > 50 then item.description.take 50
              else item.description))
    ∧ ((drawItemRow Canvas.init 0 { line_no := 1, description := desc51 }).instrs[1]?).map
        DrawInstr.text = some (desc51.take 50)
    ∧ ((drawItemRow Canvas.init 0 { line_no := 1, description := desc50 }).instrs[1]?).map
        DrawInstr.text = some desc50 := by
  have hgen : ∀ (c : Canvas) (i : Nat) (item : DD1750Item),
      ((drawItemRow c i item).instrs[c.instrs.length + 1]?).map DrawInstr.text
        = some (if item.description.length > 50 then item.description.take 50
            else item.description) := by
    intro c i item
    rw [drawItemRow_instrs, List.getElem?_append_right (by omega)]
    have hidx : c.instrs.length + 1 - c.instrs.length = 1 := by omega
    rw [hidx]
    simp [rowSpec]
  refine ⟨hgen, ?_, ?_⟩
  · have h := hgen Canvas.init 0 { line_no := 1, description := desc51 }
    have hl : desc51.length > 50 := by decide
    simpa [Canvas.init, hl] using h
  · have h := hgen Canvas.init 0 { line_no := 1, description := desc50 }
    have hl : ¬ desc50.length > 50 := by decide
    simpa [Canvas.init, hl] using h

/-- C5: for every row index i (0-indexed within a page), the row anchor
is y = (616 - 5) - i * ROW_H and the draws the row emits are exactly
those listed by rowSpec: line number centered in the box-number column
at y - 7, description left-aligned 3 units from the left edge of the
content column at y - 7, the NSN line "NSN: " + nsn at y - 17 exactly
when nsn is non-empty, and unit of issue, initial, spares and total
quantities centered in their columns at y - 7; the page item loop emits
these row draw lists in order. -/
theorem row_draws_spec :
    (∀ (c : Canvas) (i : Nat) (item : DD1750Item),
        (drawItemRow c i item).instrs = c.instrs ++ rowSpec i item)
    ∧ (∀ (c : Canvas) (i : Nat) (l : List DD1750Item),
        (drawItems c i l).instrs = c.instrs ++ pageRowsInstrs i l) :=
  ⟨drawItemRow_instrs, drawItems_instrs⟩

/-- C6: when a header is provided and the item list is non-empty, every
output page carries the same header draws: the fixed header fields
(each non-empty field at its fixed coordinate, date only if non-empty,
end_item truncated to 60 characters) identically on every page, then
the 1-based page index and the total page count, then the certifier
draws exactly when name or title is non-empty, followed by the item
rows of that page. -/
theorem header_on_every_page (items : List DD1750Item) (h : DD1750Header)
    (hne : items ≠ []) (p : Nat) (hp : p < totalPages items) :
    (generate_dd1750 items (some h)).1[p]? =
      some (OutPage.composed (headerFixedSpec h
        ++ [pageNumInstr (p + 1), pageTotalInstr (totalPages items)]
        ++ certSpec h ++ pageRowsInstrs 0 (pageSlice items p))) := by
  rw [generate_page_eq items (some h) hne p hp]
  simp [makeOverlay, drawItems_instrs, draw_header_instrs, Canvas.init,
    List.append_assoc]

/-- C6 witness at a one-item list, a fully populated header and page 0. -/
theorem header_on_every_page_witness :
    (generate_dd1750 [demoItem] (some demoHeader)).1[0]? =
      some (OutPage.composed (headerFixedSpec demoHeader
        ++ [pageNumInstr (0 + 1), pageTotalInstr (totalPages [demoItem])]
        ++ certSpec demoHeader ++ pageRowsInstrs 0 (pageSlice [demoItem] 0))) :=
  header_on_every_page [demoItem] demoHeader (by simp) 0 (by decide)

/-- C7: the row height constant is exactly (616.0 - 89.5) / 18 = 29.25,
it strictly exceeds 17, and hence the NSN line at y - 17 lies strictly
above the next row anchor y - ROW_H. -/
theorem row_height_spec :
    ROW_H = (616.0 - 89.5) / 18 ∧ ROW_H = 29.25 ∧ (17 : ℚ) < ROW_H
    ∧ ∀ y : ℚ, y - ROW_H < y - 17 := by
  refine ⟨?_, ?_, ?_, ?_⟩
  · norm_num [ROW_H, Y_TABLE_TOP_LINE, Y_TABLE_BOTTOM_LINE, ROWS_PER_PAGE]
  · norm_num [ROW_H, Y_TABLE_TOP_LINE, Y_TABLE_BOTTOM_LINE, ROWS_PER_PAGE]
  · norm_num [ROW_H, Y_TABLE_TOP_LINE, Y_TABLE_BOTTOM_LINE, ROWS_PER_PAGE]
  · intro y
    have : (17 : ℚ) < ROW_H := by
      norm_num [ROW_H, Y_TABLE_TOP_LINE, Y_TABLE_BOTTOM_LINE, ROWS_PER_PAGE]
    linarith

/-- C8: if the template read performed for any page fails, the whole
render fails and no output document with any subset of the pages is
produced. -/
theorem page_failure_no_output (items : List DD1750Item)
    (header : Option DD1750Header) (rt : Nat → Except PdfError Unit)
    (p : Nat) (hp : p < numTemplateReads items) (e : PdfError)
    (he : rt p = Except.error e) :
    exceptOk (generateE items header rt) = false := by
  by_cases hemp : items.isEmpty
  · have hp0 : p = 0 := by
      simp [numTemplateReads, hemp] at hp
      omega
    subst hp0
    simp only [generateE, hemp, if_true, he]
    rfl
  · have hbool : items.isEmpty = false := by
      cases hb : items.isEmpty with
      | true => exact absurd hb hemp
      | false => rfl
    have hp2 : p < totalPages items := by
      simpa [numTemplateReads, hbool] using hp
    have hmem : p ∈ List.range (totalPages items) := List.mem_range.mpr hp2
    have herr := composeRangeE_error items header (totalPages items) rt
      (List.range (totalPages items)) p hmem e he
    simp only [generateE, hbool, Bool.false_eq_true, if_false]
    cases hcr : composeRangeE items header (totalPages items) rt
        (List.range (totalPages items)) with
    | error e2 => rfl
    | ok pages => rw [hcr] at herr; simp [exceptOk] at herr

/-- C8 witness: with a one-item list and a template read that fails,
the render produces no output. -/
theorem page_failure_no_output_witness :
    exceptOk (generateE [demoItem] none badRead) = false :=
  page_failure_no_output [demoItem] none badRead 0 (by decide)
    (PdfError.templateUnreadable 0) rfl

/-- C9: rendering is deterministic: two invocations on the same
(items, header) pair produce identical outputs, hence identical draw
instruction sequences on every page. -/
theorem render_deterministic (items₁ items₂ : List DD1750Item)
    (header₁ header₂ : Option DD1750Header) (hi : items₁ = items₂)
    (hh : header₁ = header₂) :
    generate_dd1750 items₁ header₁ = generate_dd1750 items₂ header₂ := by
  subst hi
  subst hh
  rfl

/-- C9 witness at a concrete invocation. -/
theorem render_deterministic_witness :
    generate_dd1750 [demoItem] (some demoHeader)
      = generate_dd1750 [demoItem] (some demoHeader) :=
  render_deterministic [demoItem] [demoItem] (some demoHeader) (some demoHeader)
    rfl rfl

/-- C10: with no header and a non-empty item list, every page draws
exactly the 1-based page index and the total page count in the header
area before the item rows, and these two instructions use the same
coordinates and font size that the header routine uses when a header is
present. -/
theorem page_numbers_without_header (items : List DD1750Item) (hne : items ≠ [])
    (p : Nat) (hp : p < totalPages items) :
    (generate_dd1750 items none).1[p]? =
      some (OutPage.composed ([pageNumInstr (p + 1), pageTotalInstr (totalPages items)]
        ++ pageRowsInstrs 0 (pageSlice items p)))
    ∧ ∀ (c : Canvas) (h : DD1750Header) (q t : Nat),
        ∃ pre post, (draw_header c h q t).instrs =
          pre ++ [pageNumInstr q, pageTotalInstr t] ++ post := by
  constructor
  · rw [generate_page_eq items none hne p hp]
    simp [makeOverlay, drawItems_instrs, Canvas.init, pageNumInstr, pageTotalInstr,
      List.append_assoc]
  · intro c h q t
    refine ⟨c.instrs ++ headerFixedSpec h, certSpec h, ?_⟩
    rw [draw_header_instrs]

/-- C10 witness at a one-item list and page 0. -/
theorem page_numbers_without_header_witness :
    (generate_dd1750 [demoItem] none).1[0]? =
      some (OutPage.composed ([pageNumInstr (0 + 1), pageTotalInstr (totalPages [demoItem])]
        ++ pageRowsInstrs 0 (pageSlice [demoItem] 0))) :=
  (page_numbers_without_header [demoItem] (by simp) 0 (by decide)).1

end DD1750